import Mathlib

/-!
Verification development for the LCA-Cost-NHMzh matching-and-computation
engine.  The definitions below are a shallow embedding of the Python code in
`src/modules/lca_processor.py`, `src/modules/cost_processor.py` and
`src/modules/storage/db_manager.py`; numeric values are modelled as exact
rationals, Python dictionaries as association lists, and Python exceptions
as explicit error values.
-/

set_option autoImplicit false

/-! ## Python primitives -/

/-- Round-half-to-even on rationals, the rounding mode of Python's
built-in `round` (modelled in exact arithmetic). -/
def rhalfEven (x : ℚ) : ℤ :=
  let n : ℤ := Int.floor x
  if x - n < 1/2 then n
  else if 1/2 < x - n then n + 1
  else if n % 2 = 0 then n else n + 1

/-- Python's `round(x, n)` for `n ≥ 0` digits, in exact arithmetic. -/
def pyRound (x : ℚ) (n : ℕ) : ℚ :=
  ((rhalfEven (x * 10 ^ n) : ℤ) : ℚ) / (10 ^ n : ℚ)

/-- Python's `value or 60` applied to an optional integer: `None` and `0`
are falsy and are replaced by the default `60`. -/
def pyOrSixty (x : Option ℤ) : ℤ :=
  match x with
  | none => 60
  | some v => if v = 0 then 60 else v

/-- Whitespace-trim on a character list (both ends). -/
def trimChars (l : List Char) : List Char :=
  ((l.dropWhile Char.isWhitespace).reverse.dropWhile Char.isWhitespace).reverse

/-- Python's `str.strip()`. -/
def pyStrip (s : String) : String :=
  String.mk (trimChars s.data)

/-- Python truthiness of an optional string: `None` and `""` are falsy. -/
def truthyStr : Option String → Bool
  | none => false
  | some s => !(s == "")

/-- Value of a digit list read in base 10. -/
def digitsVal (l : List Char) : ℕ :=
  l.foldl (fun a c => a * 10 + (c.toNat - 48)) 0

/-- Decimal-literal parser on a trimmed character list: optional sign,
integer part, optional fractional part.  Anything else is unparseable. -/
def parseDecimalCore (l : List Char) : Option ℚ :=
  let sgn : ℤ := match l with
    | '-' :: _ => -1
    | _ => 1
  let t : List Char := match l with
    | '-' :: r => r
    | '+' :: r => r
    | _ => l
  let ip := t.takeWhile Char.isDigit
  let rest := t.dropWhile Char.isDigit
  match rest with
  | [] => if ip.isEmpty then none else some (mkRat (sgn * (digitsVal ip : ℤ)) 1)
  | '.' :: fp =>
    if fp.all Char.isDigit && !(ip.isEmpty && fp.isEmpty) then
      some (mkRat (sgn * ((digitsVal ip * 10 ^ fp.length + digitsVal fp : ℕ) : ℤ)) (10 ^ fp.length))
    else none
  | _ => none

/-- Numeric parse of a string, as performed by `pd.to_numeric` on a cell
holding text (`db_manager.py` line 225): a plain decimal literal parses,
everything else coerces to NaN (here `none`). -/
def parseDecimal (s : String) : Option ℚ :=
  parseDecimalCore (trimChars s.data)

/-! ## Density resolution (`DatabaseManager.import_kbob_data`)

`db_manager.py` lines 225 and 230: the raw `Rohdichte/ Flaechenmasse` cell
goes through `pd.to_numeric(..., errors="coerce")` and the resulting NaN
values are replaced by `0` with `fillna(0)`. -/

/-- A raw reference-table density cell: already numeric, textual, or absent. -/
inductive RawCell
  | num (q : ℚ)
  | str (s : String)
  | absent
deriving DecidableEq

/-- `pd.to_numeric(cell, errors="coerce")`: numbers pass through, strings
are parsed as decimal literals, anything unparseable or absent is NaN. -/
def toNumericCoerce : RawCell → Option ℚ
  | RawCell.num q => some q
  | RawCell.str s => parseDecimal s
  | RawCell.absent => none

/-- Density of one KBOB reference row as imported by
`DatabaseManager.import_kbob_data`: numeric coercion followed by `fillna(0)`. -/
def import_kbob_density (c : RawCell) : ℚ :=
  (toNumericCoerce c).getD 0

/-! ## LCA engine data model (`LCAProcessor`) -/

/-- Per-material quantity record of an element
(`element["material_volumes"][name]`); any key may be absent. -/
structure MaterialData where
  volume : Option ℚ
  fraction : Option ℚ
  density : Option ℚ
deriving DecidableEq

/-- An IFC element as consumed by the LCA engine.  `guid` and `id` model
the two identifier keys probed by `validate_data`; `ebkp` models
`element["properties"]["ebkp"]` with `""` for an absent code. -/
structure Element where
  guid : Option String
  id : Option String
  materials : List String
  material_volumes : List (String × MaterialData)
  ebkp : String
deriving DecidableEq

/-- One KBOB reference row (name and the three impact indicators). -/
structure KbobMaterial where
  name : String
  indicator_co2eq : ℚ
  indicator_penre : ℚ
  indicator_ubp : ℚ
deriving DecidableEq

/-- One entry of the raw material-mappings list
(`{"ifc_material": ..., "kbob_id": ...}`). -/
structure MappingItem where
  ifc_material : String
  kbob_id : Option String
deriving DecidableEq

/-- The reference data an LCA run reads: the KBOB table of the active
version keyed by uuid, the raw material mappings, and the
`life_expectancy` table rows `(ebkp_code, years)`. -/
structure LcaCtx where
  kbob : List (String × KbobMaterial)
  mappings : List MappingItem
  life_table : List (String × ℤ)
deriving DecidableEq

/-- `element.get("material_volumes", {}).get(material_name, {})`. -/
def lookupMat (mv : List (String × MaterialData)) (m : String) : MaterialData :=
  match mv.find? (fun p => p.1 == m) with
  | some p => p.2
  | none => ⟨none, none, none⟩

/-- `material_data.get("volume", 0)` (`lca_processor.py` line 168). -/
def matVolume (e : Element) (m : String) : ℚ :=
  ((lookupMat e.material_volumes m).volume).getD 0

/-- `material_data.get("fraction", 1.0)` (`lca_processor.py` line 169);
the source binds this value but never uses it. -/
def matFraction (e : Element) (m : String) : ℚ :=
  ((lookupMat e.material_volumes m).fraction).getD 1

/-- `material_data.get("density", 0)` (`lca_processor.py` line 170). -/
def matDensity (e : Element) (m : String) : ℚ :=
  ((lookupMat e.material_volumes m).density).getD 0

/-- Modelled from the spec (section 4.2 step 1), for comparison with the
source: the spec's "effective volume" is the per-material volume times the
per-material fraction, the fraction defaulting to 1.0 when absent. -/
def effectiveVolume (e : Element) (m : String) : ℚ :=
  matVolume e m * matFraction e m

/-- The dictionary comprehension of `LCAProcessor.process_data` lines
141-145: keep items with truthy `kbob_id`; on duplicate keys the last
item wins; then `material_mappings.get(material_name)`. -/
def mappingLookup (items : List MappingItem) (m : String) : Option String :=
  match (items.filter (fun i => truthyStr i.kbob_id && i.ifc_material == m)).getLast? with
  | some i => i.kbob_id
  | none => none

/-- `DatabaseManager.get_kbob_material` restricted to the active version:
SQL lookup of the row whose uuid matches. -/
def kbobLookup (tbl : List (String × KbobMaterial)) (kid : String) : Option KbobMaterial :=
  match tbl.find? (fun p => p.1 == kid) with
  | some p => some p.2
  | none => none

/-- SQL `MIN` aggregate over a list of integers (`NULL`, i.e. `none`,
for an empty list). -/
def sqlMin (l : List ℤ) : Option ℤ :=
  l.foldl (fun acc y =>
    match acc with
    | none => some y
    | some a => some (min a y)) none

/-- `LCAProcessor.get_life_expectancy`: falsy code short-circuits to
`None`; otherwise `SELECT MIN(years) FROM life_expectancy WHERE
ebkp_code = ?` on the stripped code. -/
def get_life_expectancy (table : List (String × ℤ)) (ebkp : String) : Option ℤ :=
  if ebkp = "" then none
  else sqlMin ((table.filter (fun p => p.1 == pyStrip ebkp)).map (fun p => p.2))

/-- The per-material error cases raised (and caught) inside
`LCAProcessor.process_data`, as a tagged sum. -/
inductive LcaError
  | invalidVolume (v : ℚ)
  | invalidDensity (d : ℚ)
  | mappingNotFound (m : String)
  | kbobNotFound (k : String)
deriving DecidableEq

/-- The human-readable message each error carries (`str(e)` in the source). -/
def LcaError.message : LcaError → String
  | LcaError.invalidVolume v => "Invalid volume: " ++ toString v
  | LcaError.invalidDensity d => "Invalid density: " ++ toString d
  | LcaError.mappingNotFound m => "Material mapping not found: " ++ m
  | LcaError.kbobNotFound k => "KBOB ID not found: " ++ k

/-- Payload of a successful LCA component (`lca_processor.py` lines 196-212). -/
structure SuccessComponent where
  guid : String
  material : String
  mat_kbob : String
  kbob_material_name : String
  volume : ℚ
  density : ℚ
  amortization : ℤ
  ebkp_h : String
  gwp_absolute : ℚ
  gwp_relative : ℚ
  penr_absolute : ℚ
  penr_relative : ℚ
  ubp_absolute : ℚ
  ubp_relative : ℚ
deriving DecidableEq

/-- One per-(element, material) result component: success payload or a
captured failure. -/
inductive Component
  | success (c : SuccessComponent)
  | failure (guid material : String) (err : LcaError)
deriving DecidableEq

/-- The `failed` flag of a component. -/
def Component.failed : Component → Bool
  | Component.success _ => false
  | Component.failure _ _ _ => true

/-- The success payload built at `lca_processor.py` lines 196-212 once
every lookup succeeded. -/
def successOf (ctx : LcaCtx) (gid : String) (e : Element) (m kid : String)
    (km : KbobMaterial) : SuccessComponent :=
  { guid := gid
    material := m
    mat_kbob := kid
    kbob_material_name := km.name
    volume := pyRound (matVolume e m) 3
    density := pyRound (matDensity e m) 3
    amortization := pyOrSixty (get_life_expectancy ctx.life_table e.ebkp)
    ebkp_h := e.ebkp
    gwp_absolute := pyRound (matVolume e m * matDensity e m * km.indicator_co2eq) 3
    gwp_relative := pyRound (matVolume e m * matDensity e m * km.indicator_co2eq /
      ((pyOrSixty (get_life_expectancy ctx.life_table e.ebkp) : ℤ) : ℚ)) 3
    penr_absolute := pyRound (matVolume e m * matDensity e m * km.indicator_penre) 3
    penr_relative := pyRound (matVolume e m * matDensity e m * km.indicator_penre /
      ((pyOrSixty (get_life_expectancy ctx.life_table e.ebkp) : ℤ) : ℚ)) 3
    ubp_absolute := pyRound (matVolume e m * matDensity e m * km.indicator_ubp) 0
    ubp_relative := pyRound (matVolume e m * matDensity e m * km.indicator_ubp /
      ((pyOrSixty (get_life_expectancy ctx.life_table e.ebkp) : ℤ) : ℚ)) 0 }

/-- Body of the per-material `try` block of `LCAProcessor.process_data`
(lines 164-231): the four guarded failures and the success payload. -/
def process_material (ctx : LcaCtx) (gid : String) (e : Element) (m : String) : Component :=
  if matVolume e m ≤ 0 then
    Component.failure gid m (LcaError.invalidVolume (matVolume e m))
  else if matDensity e m ≤ 0 then
    Component.failure gid m (LcaError.invalidDensity (matDensity e m))
  else
    match mappingLookup ctx.mappings m with
    | none => Component.failure gid m (LcaError.mappingNotFound m)
    | some kid =>
      match kbobLookup ctx.kbob kid with
      | none => Component.failure gid m (LcaError.kbobNotFound kid)
      | some km => Component.success (successOf ctx gid e m kid km)

/-- One element's aggregated result (`element_result` in the source). -/
structure ElementResult where
  guid : String
  components : List Component
  shared_guid : Bool
deriving DecidableEq

/-- The result `process_data` produces for one element: `none` when the
element is skipped (falsy material list), otherwise the grouped
components with the `shared_guid` flag (lines 152-237). -/
def resultOf (ctx : LcaCtx) (e : Element) : Option ElementResult :=
  match e.id with
  | none => none
  | some gid =>
    if e.materials.isEmpty then none
    else
      some { guid := gid
             components := e.materials.map (process_material ctx gid e)
             shared_guid := decide (1 < (e.materials.map (process_material ctx gid e)).length) }

/-- `LCAProcessor.process_data` over the element batch.  The unguarded
`element["id"]` access at line 154 raises `KeyError` for an element
without an `id` key and aborts the whole run; every other element
contributes its grouped components. -/
def process_data (ctx : LcaCtx) : List Element → Except String (List ElementResult)
  | [] => Except.ok []
  | e :: rest =>
    match e.id with
    | none => Except.error "KeyError: id"
    | some gid =>
      match process_data ctx rest with
      | Except.error msg => Except.error msg
      | Except.ok rs =>
        if e.materials.isEmpty then Except.ok rs
        else Except.ok
          ({ guid := gid
             components := e.materials.map (process_material ctx gid e)
             shared_guid := decide (1 < (e.materials.map (process_material ctx gid e)).length) } :: rs)

/-- Per-element predicate of `LCAProcessor.validate_data` (lines 76-109):
a truthy identifier (`guid` or `id`), a truthy material list, and at
least one material whose `volume` key is present and positive. -/
def validElement (e : Element) : Bool :=
  (truthyStr e.guid || truthyStr e.id)
  && !e.materials.isEmpty
  && e.materials.any (fun m =>
    match (lookupMat e.material_volumes m).volume with
    | some v => decide (0 < v)
    | none => false)

/-- `LCAProcessor.validate_data`: invalid elements are filtered out with a
logged warning; the run raises only when no valid element remains. -/
def validate_data (elems : List Element) : Except String (List Element) :=
  let valid := elems.filter validElement
  if valid.isEmpty then Except.error "No valid elements found after validation"
  else Except.ok valid

/-! ## Cost engine data model (`CostProcessor`) -/

/-- One element row of the cost engine's input frame after column
renaming: `GUID`, optional `Area` / `Length` (NaN as `none`), raw
`eBKP-H` text. -/
structure CostElement where
  guid : String
  area : Option ℚ
  length : Option ℚ
  ebkp : String
deriving DecidableEq

/-- One cost-reference row: index `Code`, rate `Kennwert`, unit tag
`reference`. -/
structure CostRow where
  code : String
  kennwert : ℚ
  reference : String
deriving DecidableEq

/-- `cost_data_df.loc[code]`: row of the cost table whose index matches. -/
def costLookup (table : List CostRow) (code : String) : Option CostRow :=
  table.find? (fun r => r.code == code)

/-- The per-element error cases captured by `CostProcessor.process_data`,
as a tagged sum.  `keyError` is the pandas `KeyError` a missing `.loc`
index raises. -/
inductive CostError
  | keyError (code : String)
  | unknownUnit (u : String)
  | invalidQuantity (q : Option ℚ)
deriving DecidableEq

/-- The message each cost error carries (`str(e)` in the source;
`str(KeyError(code))` is the code wrapped in single quotes). -/
def CostError.message : CostError → String
  | CostError.keyError code =>
      String.singleton (Char.ofNat 39) ++ code ++ String.singleton (Char.ofNat 39)
  | CostError.unknownUnit u => "Unknown unit type: " ++ u
  | CostError.invalidQuantity q =>
      "Invalid quantity: " ++ (match q with
        | none => "nan"
        | some v => toString v)

/-- One per-element cost result component. -/
inductive CostComponent
  | success (guid ebkp : String) (total_cost unit_cost : ℚ) (unit : String)
  | failure (guid ebkp : String) (err : CostError)
deriving DecidableEq

/-- The `failed` flag of a cost component. -/
def CostComponent.failed : CostComponent → Bool
  | CostComponent.success _ _ _ _ _ => false
  | CostComponent.failure _ _ _ => true

/-- An element's aggregated cost result (always a single component). -/
structure CostElementResult where
  guid : String
  components : List CostComponent
  shared_guid : Bool
deriving DecidableEq

/-- Quantity validation and cost computation (`cost_processor.py` lines
113-132): NaN or non-positive quantity fails, otherwise
`total_cost = quantity * Kennwert` rounded to 2 decimals, with the unit
rate also rounded to 2 decimals. -/
def costQty (gid code : String) (row : CostRow) (q : Option ℚ) : CostComponent :=
  match q with
  | none => CostComponent.failure gid code (CostError.invalidQuantity none)
  | some v =>
    if v ≤ 0 then CostComponent.failure gid code (CostError.invalidQuantity (some v))
    else CostComponent.success gid code (pyRound (v * row.kennwert) 2)
      (pyRound row.kennwert 2) row.reference

/-- The per-element `try` block of `CostProcessor.process_data` (lines
100-157): reference lookup by stripped classification code, unit
dispatch (`m2` → net area, `m` → length, otherwise "Unknown unit type"),
then quantity validation and the cost computation. -/
def costComponentOf (table : List CostRow) (e : CostElement) : CostComponent :=
  match costLookup table (pyStrip e.ebkp) with
  | none => CostComponent.failure e.guid (pyStrip e.ebkp) (CostError.keyError (pyStrip e.ebkp))
  | some row =>
    if row.reference = "m2" then costQty e.guid (pyStrip e.ebkp) row e.area
    else if row.reference = "m" then costQty e.guid (pyStrip e.ebkp) row e.length
    else CostComponent.failure e.guid (pyStrip e.ebkp) (CostError.unknownUnit row.reference)

/-- One element's cost result: exactly one component, `shared_guid`
hard-coded to `False` (lines 119-132 and 145-156). -/
def processCostElement (table : List CostRow) (e : CostElement) : CostElementResult :=
  { guid := e.guid
    components := [costComponentOf table e]
    shared_guid := false }

/-- `CostProcessor.process_data` over the element batch. -/
def cost_process_data (table : List CostRow) (elems : List CostElement) :
    List CostElementResult :=
  elems.map (processCostElement table)

/-! ## Concrete fixtures used by witnesses and counterexamples -/

/-- Reference material with unit indicators. -/
def kmUnit : KbobMaterial := ⟨"KMat", 1, 1, 1⟩

/-- Context mapping material `"mat"` to `kmUnit`, with an empty
service-life table. -/
def ctxC1 : LcaCtx := ⟨[("K", kmUnit)], [⟨"mat", some "K"⟩], []⟩

/-- Element whose only material has volume 2 but fraction 0: the spec's
effective volume is 0 while the per-material volume is positive. -/
def elemFrac0 : Element :=
  ⟨none, some "g", ["mat"], [("mat", ⟨some 2, some 0, some 1⟩)], ""⟩

/-- Element whose only material has a negative volume. -/
def elemNegVol : Element :=
  ⟨none, some "g", ["mat"], [("mat", ⟨some (-1), some 1, some 1⟩)], ""⟩

/-- Reference material for the end-to-end concrete run (GWP factor 1/10). -/
def kmConcrete : KbobMaterial := ⟨"Hochbaubeton", mkRat 1 10, 1, 2⟩

/-- Context for the end-to-end concrete run: `"Concrete"` maps to
`kmConcrete` and code `"C"` has a 50-year service life. -/
def ctxG : LcaCtx := ⟨[("K", kmConcrete)], [⟨"Concrete", some "K"⟩], [("C", 50)]⟩

/-- Element `E1`: volume 10, fraction 1, density 2300, code `"C"`. -/
def elemG : Element :=
  ⟨none, some "E1", ["Concrete"], [("Concrete", ⟨some 10, some 1, some 2300⟩)], "C"⟩

/-- Element with an unmapped material (produces a failed component). -/
def elemBad : Element :=
  ⟨none, some "E2", ["Unknown"], [("Unknown", ⟨some 1, none, some 1⟩)], "C"⟩

/-- Valid element carrying only the `id` identifier. -/
def elemA : Element :=
  ⟨none, some "a", ["m"], [("m", ⟨some 1, none, some 1⟩)], ""⟩

/-- Valid element carrying only the `guid` identifier (no `id` key). -/
def elemB : Element :=
  ⟨some "b", none, ["m"], [("m", ⟨some 1, none, some 1⟩)], ""⟩

/-- Empty LCA context. -/
def ctxEmpty : LcaCtx := ⟨[], [], []⟩

/-- Cost-reference fixture: code `"C1"` at rate 120 per m2 and code
`"C2"` at rate 80 per m, plus a row with an unrecognized unit tag. -/
def tblW : List CostRow := [⟨"C1", 120, "m2"⟩, ⟨"C2", 80, "m"⟩, ⟨"C3", 10, "m3"⟩]

/-- Cost element with net area 50 under code `"C1"`. -/
def eW1 : CostElement := ⟨"g1", some 50, none, "C1"⟩

/-- Cost element with length 10 under code `"C2"`. -/
def eW2 : CostElement := ⟨"g2", none, some 10, "C2"⟩

/-- Cost element under code `"C3"`, whose reference row's unit is `"m3"`. -/
def eW3 : CostElement := ⟨"g3", some 50, some 10, "C3"⟩

/-- Cost element whose code `"C2.1"` has no row in the reference table. -/
def eMissing : CostElement := ⟨"g7", some 50, some 10, "C2.1"⟩

/-! ## Helper lemmas -/

/-- Case analysis of the per-material computation: exactly one of the four
failure branches or the success branch applies, following the guard order
of the source. -/
theorem process_material_spec (ctx : LcaCtx) (gid : String) (e : Element) (m : String) :
    (matVolume e m ≤ 0 ∧
      process_material ctx gid e m = Component.failure gid m (LcaError.invalidVolume (matVolume e m)))
    ∨ (0 < matVolume e m ∧ matDensity e m ≤ 0 ∧
      process_material ctx gid e m = Component.failure gid m (LcaError.invalidDensity (matDensity e m)))
    ∨ (0 < matVolume e m ∧ 0 < matDensity e m ∧ mappingLookup ctx.mappings m = none ∧
      process_material ctx gid e m = Component.failure gid m (LcaError.mappingNotFound m))
    ∨ (∃ kid, 0 < matVolume e m ∧ 0 < matDensity e m ∧
      mappingLookup ctx.mappings m = some kid ∧ kbobLookup ctx.kbob kid = none ∧
      process_material ctx gid e m = Component.failure gid m (LcaError.kbobNotFound kid))
    ∨ (∃ kid km, 0 < matVolume e m ∧ 0 < matDensity e m ∧
      mappingLookup ctx.mappings m = some kid ∧ kbobLookup ctx.kbob kid = some km ∧
      process_material ctx gid e m = Component.success (successOf ctx gid e m kid km)) := by
  by_cases hv : matVolume e m ≤ 0
  · exact Or.inl ⟨hv, by unfold process_material; rw [if_pos hv]⟩
  by_cases hd : matDensity e m ≤ 0
  · exact Or.inr (Or.inl ⟨not_le.mp hv, hd, by
      unfold process_material; rw [if_neg hv, if_pos hd]⟩)
  cases hmap : mappingLookup ctx.mappings m with
  | none =>
    exact Or.inr (Or.inr (Or.inl ⟨not_le.mp hv, not_le.mp hd, rfl, by
      unfold process_material; simp only [if_neg hv, if_neg hd, hmap]⟩))
  | some kid =>
    cases hkb : kbobLookup ctx.kbob kid with
    | none =>
      exact Or.inr (Or.inr (Or.inr (Or.inl ⟨kid, not_le.mp hv, not_le.mp hd, rfl, hkb, by
        unfold process_material; simp only [if_neg hv, if_neg hd, hmap, hkb]⟩)))
    | some km =>
      exact Or.inr (Or.inr (Or.inr (Or.inr ⟨kid, km, not_le.mp hv, not_le.mp hd, rfl, hkb, by
        unfold process_material; simp only [if_neg hv, if_neg hd, hmap, hkb]⟩)))

/-- On the success path, the emitted component is `successOf`. -/
theorem process_material_success (ctx : LcaCtx) (gid : String) (e : Element) (m kid : String)
    (km : KbobMaterial) (hmap : mappingLookup ctx.mappings m = some kid)
    (hkb : kbobLookup ctx.kbob kid = some km)
    (hv : 0 < matVolume e m) (hd : 0 < matDensity e m) :
    process_material ctx gid e m = Component.success (successOf ctx gid e m kid km) := by
  unfold process_material
  simp only [if_neg (not_le.mpr hv), if_neg (not_le.mpr hd), hmap, hkb]

/-- The batch run over elements that all carry the `id` key completes and
equals the element-wise `resultOf` collection. -/
theorem process_data_eq (ctx : LcaCtx) (elems : List Element)
    (h : ∀ e ∈ elems, e.id.isSome) :
    process_data ctx elems = Except.ok (elems.filterMap (resultOf ctx)) := by
  induction elems with
  | nil => rfl
  | cons e rest ih =>
    obtain ⟨gid, hgid⟩ := Option.isSome_iff_exists.mp (h e (by simp))
    have hrest := ih (fun x hx => h x (by simp [hx]))
    by_cases hm : e.materials.isEmpty
    · simp only [process_data, hgid, hrest, List.filterMap_cons, resultOf, hm, if_pos]
    · simp only [process_data, hgid, hrest, List.filterMap_cons, resultOf, hm, if_neg,
        Bool.false_eq_true, not_false_iff]

/-- Membership of one element's result in the batch output. -/
theorem resultOf_mem (ctx : LcaCtx) (elems : List Element) (e : Element) (gid : String)
    (he : e ∈ elems) (hid : e.id = some gid) (hm : e.materials ≠ []) :
    ({ guid := gid
       components := e.materials.map (process_material ctx gid e)
       shared_guid := decide (1 < (e.materials.map (process_material ctx gid e)).length) }
      : ElementResult) ∈ elems.filterMap (resultOf ctx) := by
  refine List.mem_filterMap.mpr ⟨e, he, ?_⟩
  cases hml : e.materials with
  | nil => exact absurd hml hm
  | cons a as => simp [resultOf, hid, hml]

/-! ## C1 -/

/-- C1 counterexample: for the element whose only material has volume 2 and
fraction 0 the spec-side effective volume is `2 * 0 = 0 ≤ 0`, so the claim
demands an "invalid volume" failure, yet the engine emits a success
component (the fraction is read but never applied). -/
theorem lca_effective_volume_claim_fails :
    (process_material ctxC1 "g" elemFrac0 "mat").failed = false
    ∧ effectiveVolume elemFrac0 "mat" ≤ 0 := by
  constructor
  · decide
  · norm_num [effectiveVolume, matVolume, matFraction, lookupMat, elemFrac0]

/-- C1 amended: the component fails with an invalid-volume error exactly
when the per-material volume (fraction NOT applied) is ≤ 0, and a success
component reports and uses that per-material volume in the indicator
computation. -/
theorem lca_invalid_volume_iff_volume_used :
    ∀ (ctx : LcaCtx) (gid : String) (e : Element) (m : String),
      ((∃ q, process_material ctx gid e m = Component.failure gid m (LcaError.invalidVolume q))
        ↔ matVolume e m ≤ 0)
      ∧ (∀ c, process_material ctx gid e m = Component.success c →
          c.volume = pyRound (matVolume e m) 3
          ∧ ∃ kid km, mappingLookup ctx.mappings m = some kid
              ∧ kbobLookup ctx.kbob kid = some km
              ∧ c.gwp_absolute = pyRound (matVolume e m * matDensity e m * km.indicator_co2eq) 3) := by
  intro ctx gid e m
  rcases process_material_spec ctx gid e m with
    ⟨hv, hpm⟩ | ⟨hv, _, hpm⟩ | ⟨hv, _, _, hpm⟩ | ⟨kid, hv, _, _, _, hpm⟩ |
    ⟨kid, km, hv, hd, hmap, hkb, hpm⟩
  · refine ⟨⟨fun _ => hv, fun _ => ⟨_, hpm⟩⟩, fun c hc => ?_⟩
    rw [hpm] at hc; exact absurd hc (by simp)
  · refine ⟨⟨fun hex => ?_, fun hle => absurd hle (not_le.mpr hv)⟩, fun c hc => ?_⟩
    · obtain ⟨q, hq⟩ := hex; rw [hpm] at hq; simp at hq
    · rw [hpm] at hc; exact absurd hc (by simp)
  · refine ⟨⟨fun hex => ?_, fun hle => absurd hle (not_le.mpr hv)⟩, fun c hc => ?_⟩
    · obtain ⟨q, hq⟩ := hex; rw [hpm] at hq; simp at hq
    · rw [hpm] at hc; exact absurd hc (by simp)
  · refine ⟨⟨fun hex => ?_, fun hle => absurd hle (not_le.mpr hv)⟩, fun c hc => ?_⟩
    · obtain ⟨q, hq⟩ := hex; rw [hpm] at hq; simp at hq
    · rw [hpm] at hc; exact absurd hc (by simp)
  · refine ⟨⟨fun hex => ?_, fun hle => absurd hle (not_le.mpr hv)⟩, fun c hc => ?_⟩
    · obtain ⟨q, hq⟩ := hex; rw [hpm] at hq; simp at hq
    · rw [hpm] at hc
      obtain rfl : successOf ctx gid e m kid km = c := by
        simpa using hc
      exact ⟨rfl, kid, km, hmap, hkb, rfl⟩

/-- C1 witness: a negative per-material volume yields the invalid-volume
failure, and the fraction-0 element yields a success component whose
reported volume is the per-material volume. -/
theorem lca_invalid_volume_iff_witness :
    (∃ q, process_material ctxC1 "g" elemNegVol "mat"
        = Component.failure "g" "mat" (LcaError.invalidVolume q))
    ∧ ∃ c, process_material ctxC1 "g" elemFrac0 "mat" = Component.success c
        ∧ c.volume = pyRound (matVolume elemFrac0 "mat") 3 :=
  ⟨(lca_invalid_volume_iff_volume_used ctxC1 "g" elemNegVol "mat").1.mpr (by decide),
   ⟨successOf ctxC1 "g" elemFrac0 "mat" "K" kmUnit, rfl,
    ((lca_invalid_volume_iff_volume_used ctxC1 "g" elemFrac0 "mat").2 _ rfl).1⟩⟩

/-! ## C2 -/

/-- C2 counterexample: the density import coerces the textual range
`"1400 - 1500"` to NaN and fills it with 0; it does not return the mean
1450 the claim demands. -/
theorem kbob_density_range_resolves_to_zero :
    import_kbob_density (RawCell.str "1400 - 1500") = 0
    ∧ import_kbob_density (RawCell.str "1400 - 1500") ≠ 1450 := by
  constructor <;> decide

/-- C2 amended: the resolver is `pd.to_numeric(..., errors="coerce")`
followed by `fillna(0)`: a number passes through, a decimal-literal string
parses, and any unparseable (range strings included) or absent input
resolves to 0 with no warning emitted. -/
theorem kbob_density_direct_parse_only :
    (∀ q, import_kbob_density (RawCell.num q) = q)
    ∧ (∀ s q, parseDecimal s = some q → import_kbob_density (RawCell.str s) = q)
    ∧ (∀ s, parseDecimal s = none → import_kbob_density (RawCell.str s) = 0)
    ∧ import_kbob_density RawCell.absent = 0 := by
  refine ⟨fun q => rfl, fun s q h => ?_, fun s h => ?_, rfl⟩
  · simp [import_kbob_density, toNumericCoerce, h]
  · simp [import_kbob_density, toNumericCoerce, h]

/-- C2 witness: `"2400"` parses to 2400 and `"n/a"` resolves to 0. -/
theorem kbob_density_direct_parse_witness :
    import_kbob_density (RawCell.str "2400") = 2400
    ∧ import_kbob_density (RawCell.str "n/a") = 0 :=
  ⟨kbob_density_direct_parse_only.2.1 "2400" 2400 (by decide),
   kbob_density_direct_parse_only.2.2.1 "n/a" (by decide)⟩

/-! ## C3 -/

/-- C3: for a material with positive volume, positive density, a
resolvable mapping and a matching KBOB row, the engine emits a success
component whose per-year indicators equal the rounded quotients of the
absolute indicator values by the amortization years (3 decimals for GWP
and PENR, 0 decimals for UBP); and every element contributes exactly one
component per material. -/
theorem lca_success_component_per_material_formulas :
    (∀ (ctx : LcaCtx) (gid : String) (e : Element) (m kid : String) (km : KbobMaterial),
      mappingLookup ctx.mappings m = some kid →
      kbobLookup ctx.kbob kid = some km →
      0 < matVolume e m → 0 < matDensity e m →
      ∃ c, process_material ctx gid e m = Component.success c
        ∧ c.amortization = pyOrSixty (get_life_expectancy ctx.life_table e.ebkp)
        ∧ c.gwp_absolute = pyRound (matVolume e m * matDensity e m * km.indicator_co2eq) 3
        ∧ c.gwp_relative = pyRound (matVolume e m * matDensity e m * km.indicator_co2eq /
            ((pyOrSixty (get_life_expectancy ctx.life_table e.ebkp) : ℤ) : ℚ)) 3
        ∧ c.penr_absolute = pyRound (matVolume e m * matDensity e m * km.indicator_penre) 3
        ∧ c.penr_relative = pyRound (matVolume e m * matDensity e m * km.indicator_penre /
            ((pyOrSixty (get_life_expectancy ctx.life_table e.ebkp) : ℤ) : ℚ)) 3
        ∧ c.ubp_absolute = pyRound (matVolume e m * matDensity e m * km.indicator_ubp) 0
        ∧ c.ubp_relative = pyRound (matVolume e m * matDensity e m * km.indicator_ubp /
            ((pyOrSixty (get_life_expectancy ctx.life_table e.ebkp) : ℤ) : ℚ)) 0)
    ∧ (∀ (ctx : LcaCtx) (gid : String) (e : Element), e.id = some gid → e.materials ≠ [] →
      ∃ r, resultOf ctx e = some r
        ∧ r.components = e.materials.map (process_material ctx gid e)
        ∧ r.components.length = e.materials.length) := by
  constructor
  · intro ctx gid e m kid km hmap hkb hv hd
    exact ⟨successOf ctx gid e m kid km,
      process_material_success ctx gid e m kid km hmap hkb hv hd,
      rfl, rfl, rfl, rfl, rfl, rfl, rfl⟩
  · intro ctx gid e hid hm
    refine ⟨{ guid := gid
              components := e.materials.map (process_material ctx gid e)
              shared_guid := decide (1 < (e.materials.map (process_material ctx gid e)).length) },
      ?_, rfl, by simp⟩
    cases hml : e.materials with
    | nil => exact absurd hml hm
    | cons a as => simp [resultOf, hid, hml]

/-- C3 witness: the end-to-end element (volume 10, density 2300, GWP
factor 1/10, 50-year service life) produces its success component, and
the element contributes exactly one component for its one material. -/
theorem lca_success_component_witness :
    (∃ c, process_material ctxG "E1" elemG "Concrete" = Component.success c
      ∧ c.amortization = pyOrSixty (get_life_expectancy ctxG.life_table elemG.ebkp)
      ∧ c.gwp_absolute = pyRound (matVolume elemG "Concrete" * matDensity elemG "Concrete" *
          kmConcrete.indicator_co2eq) 3
      ∧ c.gwp_relative = pyRound (matVolume elemG "Concrete" * matDensity elemG "Concrete" *
          kmConcrete.indicator_co2eq /
          ((pyOrSixty (get_life_expectancy ctxG.life_table elemG.ebkp) : ℤ) : ℚ)) 3
      ∧ c.penr_absolute = pyRound (matVolume elemG "Concrete" * matDensity elemG "Concrete" *
          kmConcrete.indicator_penre) 3
      ∧ c.penr_relative = pyRound (matVolume elemG "Concrete" * matDensity elemG "Concrete" *
          kmConcrete.indicator_penre /
          ((pyOrSixty (get_life_expectancy ctxG.life_table elemG.ebkp) : ℤ) : ℚ)) 3
      ∧ c.ubp_absolute = pyRound (matVolume elemG "Concrete" * matDensity elemG "Concrete" *
          kmConcrete.indicator_ubp) 0
      ∧ c.ubp_relative = pyRound (matVolume elemG "Concrete" * matDensity elemG "Concrete" *
          kmConcrete.indicator_ubp /
          ((pyOrSixty (get_life_expectancy ctxG.life_table elemG.ebkp) : ℤ) : ℚ)) 0)
    ∧ (∃ r, resultOf ctxG elemG = some r
        ∧ r.components = elemG.materials.map (process_material ctxG "E1" elemG)
        ∧ r.components.length = elemG.materials.length) :=
  ⟨lca_success_component_per_material_formulas.1 ctxG "E1" elemG "Concrete" "K" kmConcrete
      (by decide) (by decide) (by decide) (by decide),
   lca_success_component_per_material_formulas.2 ctxG "E1" elemG rfl (by decide)⟩

/-! ## C4 -/

/-- C4: the cost engine's quantity basis is the element's net area for
unit tag `"m2"` and its length for `"m"`, with `total_cost` and the unit
rate rounded to 2 decimals; any other unit tag fails the component with
an "Unknown unit type" error and computes no cost; on the claim's
numbers, 50 m2 at rate 120 rounds to 6000 and 10 m at rate 80 to 800. -/
theorem cost_unit_dispatch :
    (∀ (table : List CostRow) (e : CostElement) (row : CostRow),
      costLookup table (pyStrip e.ebkp) = some row →
      (∀ a, row.reference = "m2" → e.area = some a → 0 < a →
        processCostElement table e =
          { guid := e.guid
            components := [CostComponent.success e.guid (pyStrip e.ebkp)
              (pyRound (a * row.kennwert) 2) (pyRound row.kennwert 2) row.reference]
            shared_guid := false })
      ∧ (∀ l, row.reference = "m" → e.length = some l → 0 < l →
        processCostElement table e =
          { guid := e.guid
            components := [CostComponent.success e.guid (pyStrip e.ebkp)
              (pyRound (l * row.kennwert) 2) (pyRound row.kennwert 2) row.reference]
            shared_guid := false })
      ∧ (row.reference ≠ "m2" → row.reference ≠ "m" →
        processCostElement table e =
          { guid := e.guid
            components := [CostComponent.failure e.guid (pyStrip e.ebkp)
              (CostError.unknownUnit row.reference)]
            shared_guid := false }))
    ∧ pyRound ((50 : ℚ) * 120) 2 = 6000 ∧ pyRound ((10 : ℚ) * 80) 2 = 800
    ∧ pyRound (120 : ℚ) 2 = 120 ∧ pyRound (80 : ℚ) 2 = 80 := by
  refine ⟨fun table e row hlook => ⟨fun a href harea ha => ?_, fun l href harea ha => ?_,
      fun h1 h2 => ?_⟩, ?_, ?_, ?_, ?_⟩
  · simp [processCostElement, costComponentOf, hlook, href, costQty, harea, not_le.mpr ha]
  · simp [processCostElement, costComponentOf, hlook, href, costQty, harea, not_le.mpr ha]
  · simp [processCostElement, costComponentOf, hlook, h1, h2]
  · norm_num [pyRound, rhalfEven]
  · norm_num [pyRound, rhalfEven]
  · norm_num [pyRound, rhalfEven]
  · norm_num [pyRound, rhalfEven]

/-- C4 witness: the three fixture elements exercise the `"m2"`, `"m"`
and unknown-unit branches of the dispatch. -/
theorem cost_unit_dispatch_witness :
    processCostElement tblW eW1 =
      { guid := "g1"
        components := [CostComponent.success "g1" "C1" (pyRound ((50 : ℚ) * 120) 2)
          (pyRound (120 : ℚ) 2) "m2"]
        shared_guid := false }
    ∧ processCostElement tblW eW2 =
      { guid := "g2"
        components := [CostComponent.success "g2" "C2" (pyRound ((10 : ℚ) * 80) 2)
          (pyRound (80 : ℚ) 2) "m"]
        shared_guid := false }
    ∧ processCostElement tblW eW3 =
      { guid := "g3"
        components := [CostComponent.failure "g3" "C3" (CostError.unknownUnit "m3")]
        shared_guid := false } :=
  ⟨(cost_unit_dispatch.1 tblW eW1 ⟨"C1", 120, "m2"⟩ (by decide)).1 50 rfl rfl (by decide),
   (cost_unit_dispatch.1 tblW eW2 ⟨"C2", 80, "m"⟩ (by decide)).2.1 10 rfl rfl (by decide),
   (cost_unit_dispatch.1 tblW eW3 ⟨"C3", 10, "m3"⟩ (by decide)).2.2 (by decide) (by decide)⟩

/-! ## C5 -/

/-- C5: whenever every batch element carries the `id` key, the LCA run
completes with a full result list in which each element with a non-empty
material list owns exactly the components computed independently per
(element, material) pair — a failure in one pair is captured in that
pair's component and never affects the other materials or elements. -/
theorem lca_per_material_failure_isolated :
    ∀ (ctx : LcaCtx) (elems : List Element),
      (∀ e ∈ elems, e.id.isSome) →
      ∃ res, process_data ctx elems = Except.ok res
        ∧ ∀ e gid, e ∈ elems → e.id = some gid → e.materials ≠ [] →
          ∃ r, r ∈ res ∧ r.guid = gid
            ∧ r.components = e.materials.map (process_material ctx gid e) := by
  intro ctx elems h
  refine ⟨elems.filterMap (resultOf ctx), process_data_eq ctx elems h, ?_⟩
  intro e gid he hid hm
  exact ⟨_, resultOf_mem ctx elems e gid he hid hm, rfl, rfl⟩

/-- C5 witness: a batch pairing the fully successful element with an
element whose material has no mapping completes, and both elements own
their independently computed components. -/
theorem lca_per_material_failure_isolated_witness :
    ∃ res, process_data ctxG [elemG, elemBad] = Except.ok res
      ∧ ∀ e gid, e ∈ [elemG, elemBad] → e.id = some gid → e.materials ≠ [] →
        ∃ r, r ∈ res ∧ r.guid = gid
          ∧ r.components = e.materials.map (process_material ctxG gid e) :=
  lca_per_material_failure_isolated ctxG [elemG, elemBad] (by decide)

/-! ## More helper lemmas -/

/-- A success component always comes from the successOf payload of a
resolved mapping and KBOB row. -/
theorem process_material_success_inv (ctx : LcaCtx) (gid : String) (e : Element) (m : String)
    (c : SuccessComponent) (hc : process_material ctx gid e m = Component.success c) :
    ∃ kid km, mappingLookup ctx.mappings m = some kid ∧ kbobLookup ctx.kbob kid = some km
      ∧ c = successOf ctx gid e m kid km := by
  rcases process_material_spec ctx gid e m with
    ⟨_, hpm⟩ | ⟨_, _, hpm⟩ | ⟨_, _, _, hpm⟩ | ⟨kid, _, _, _, _, hpm⟩ |
    ⟨kid, km, _, _, hmap, hkb, hpm⟩
  · rw [hpm] at hc; exact absurd hc (by simp)
  · rw [hpm] at hc; exact absurd hc (by simp)
  · rw [hpm] at hc; exact absurd hc (by simp)
  · rw [hpm] at hc; exact absurd hc (by simp)
  · rw [hpm] at hc
    exact ⟨kid, km, hmap, hkb, by simpa using hc.symm⟩

/-- A Boolean filter over a list on which the predicate is everywhere
false is empty. -/
theorem filter_eq_nil_of_false {α : Type} (p : α → Bool) :
    ∀ (l : List α), (∀ a ∈ l, p a = false) → l.filter p = [] := by
  intro l h
  induction l with
  | nil => rfl
  | cons a as ih =>
    have ha := h a (by simp)
    simp [List.filter_cons, ha, ih (fun x hx => h x (by simp [hx]))]

/-! ## C6 -/

/-- C6: evaluation at the failing input.  The element identified only by
`guid` passes validation (the validator accepts `guid` or `id`), but the
processing loop's unguarded `element["id"]` access raises `KeyError` and
aborts the whole batch, so no result list is produced and the first
element — all of whose components were computable — appears nowhere. -/
theorem lca_guid_only_element_aborts_batch :
    validate_data [elemA, elemB] = Except.ok [elemA, elemB]
    ∧ process_data ctxEmpty [elemA, elemB] = Except.error "KeyError: id" := by
  constructor <;> rfl

/-! ## C7 -/

/-- C7 counterexample: for classification code "C2.1" absent from the
cost table the sole component is emitted as failed, but its error
message is the pandas KeyError text (the quoted code), not the claimed
"cost data not found for code C2.1". -/
theorem cost_missing_code_message_differs :
    processCostElement ([] : List CostRow) eMissing =
      { guid := "g7"
        components := [CostComponent.failure "g7" "C2.1" (CostError.keyError "C2.1")]
        shared_guid := false }
    ∧ CostError.message (CostError.keyError "C2.1") ≠ "cost data not found for code C2.1" := by
  constructor
  · rfl
  · decide

/-- C7 amended: for every element whose (stripped) classification code is
absent from the cost table, the element's sole component is emitted as
failed carrying the KeyError for that code — the error message is the
quoted code, not a "cost data not found" phrase. -/
theorem cost_missing_code_fails_with_keyerror :
    ∀ (table : List CostRow) (e : CostElement),
      costLookup table (pyStrip e.ebkp) = none →
      processCostElement table e =
        { guid := e.guid
          components := [CostComponent.failure e.guid (pyStrip e.ebkp)
            (CostError.keyError (pyStrip e.ebkp))]
          shared_guid := false } := by
  intro table e h
  simp [processCostElement, costComponentOf, h]

/-- C7 witness: element `eW1` against an empty cost table. -/
theorem cost_missing_code_witness :
    processCostElement ([] : List CostRow) eW1 =
      { guid := "g1"
        components := [CostComponent.failure "g1" "C1" (CostError.keyError "C1")]
        shared_guid := false } :=
  cost_missing_code_fails_with_keyerror [] eW1 rfl

/-! ## C8 -/

/-- C8: every success component's amortization years are the service-life
lookup for the element's classification code passed through the falsy
guard (`... or 60`), and equal the 60-year default whenever no entry of
the table matches the stripped code. -/
theorem lca_amortization_from_table_default_60 :
    ∀ (ctx : LcaCtx) (gid : String) (e : Element) (m : String) (c : SuccessComponent),
      process_material ctx gid e m = Component.success c →
      c.amortization = pyOrSixty (get_life_expectancy ctx.life_table e.ebkp)
      ∧ ((∀ p ∈ ctx.life_table, p.1 ≠ pyStrip e.ebkp) → c.amortization = 60) := by
  intro ctx gid e m c hc
  obtain ⟨kid, km, hmap, hkb, rfl⟩ := process_material_success_inv ctx gid e m c hc
  refine ⟨rfl, fun hmiss => ?_⟩
  have hnone : get_life_expectancy ctx.life_table e.ebkp = none := by
    unfold get_life_expectancy
    by_cases hek : e.ebkp = ""
    · rw [if_pos hek]
    · rw [if_neg hek]
      have hfil : ctx.life_table.filter (fun p => p.1 == pyStrip e.ebkp) = [] :=
        filter_eq_nil_of_false _ _ (fun p hp => beq_eq_false_iff_ne.mpr (hmiss p hp))
      rw [hfil]
      rfl
  show pyOrSixty (get_life_expectancy ctx.life_table e.ebkp) = 60
  rw [hnone]
  rfl

/-- C8 witness: the fixture element against an empty service-life table
receives the 60-year default. -/
theorem lca_amortization_witness :
    ∃ c, process_material ctxC1 "g" elemFrac0 "mat" = Component.success c
      ∧ c.amortization = pyOrSixty (get_life_expectancy ctxC1.life_table elemFrac0.ebkp)
      ∧ c.amortization = 60 :=
  ⟨successOf ctxC1 "g" elemFrac0 "mat" "K" kmUnit, rfl,
   (lca_amortization_from_table_default_60 ctxC1 "g" elemFrac0 "mat" _ rfl).1,
   (lca_amortization_from_table_default_60 ctxC1 "g" elemFrac0 "mat" _ rfl).2 (by decide)⟩

/-! ## C9 -/

/-- C9: in every element result the LCA engine produces, the shared-id
flag is true exactly when more than one component is grouped under the
element id; the cost engine emits exactly one component per element and
always sets the flag to false. -/
theorem shared_guid_iff_multiple_components :
    (∀ (ctx : LcaCtx) (elems : List Element) (res : List ElementResult),
      process_data ctx elems = Except.ok res →
      ∀ r ∈ res, r.shared_guid = decide (1 < r.components.length))
    ∧ (∀ (table : List CostRow) (celems : List CostElement),
      ∀ r ∈ cost_process_data table celems,
        r.components.length = 1 ∧ r.shared_guid = false) := by
  constructor
  · intro ctx elems
    induction elems with
    | nil =>
      intro res h r hr
      rw [show process_data ctx [] = Except.ok [] from rfl] at h
      injection h with h'
      subst h'
      exact absurd hr (by simp)
    | cons e rest ih =>
      intro res h r hr
      unfold process_data at h
      split at h
      · exact absurd h (by simp)
      · split at h
        · exact absurd h (by simp)
        · rename_i gid _ rs heq
          split at h
          · injection h with h'
            subst h'
            exact ih rs heq r hr
          · injection h with h'
            subst h'
            rcases List.mem_cons.mp hr with rfl | hr2
            · rfl
            · exact ih rs heq r hr2
  · intro table celems r hr
    obtain ⟨e, _, rfl⟩ := List.mem_map.mp hr
    exact ⟨rfl, rfl⟩

/-- C9 witness: a one-material LCA element result has the flag false (one
component), and a concrete cost result has one component with flag false. -/
theorem shared_guid_witness :
    ((⟨"E1", [process_material ctxG "E1" elemG "Concrete"], false⟩ : ElementResult).shared_guid
      = decide (1 <
        (⟨"E1", [process_material ctxG "E1" elemG "Concrete"], false⟩ : ElementResult).components.length))
    ∧ ((processCostElement tblW eW1).components.length = 1
      ∧ (processCostElement tblW eW1).shared_guid = false) :=
  ⟨shared_guid_iff_multiple_components.1 ctxG [elemG]
      [⟨"E1", [process_material ctxG "E1" elemG "Concrete"], false⟩] rfl _ (by simp),
   shared_guid_iff_multiple_components.2 tblW [eW1] (processCostElement tblW eW1)
      (by simp [cost_process_data])⟩

/-! ## C10 -/

/-- C10: the amortization divisor is never zero — a falsy service-life
lookup (no match or a 0-year entry) is replaced by 60 before the
per-year divisions, so every emitted success component divides by a
non-zero amortization. -/
theorem lca_amortization_never_zero :
    (∀ (table : List (String × ℤ)) (ebkp : String),
      pyOrSixty (get_life_expectancy table ebkp) ≠ 0)
    ∧ (∀ (table : List (String × ℤ)) (ebkp : String),
      get_life_expectancy table ebkp = none ∨ get_life_expectancy table ebkp = some 0 →
      pyOrSixty (get_life_expectancy table ebkp) = 60)
    ∧ (∀ (ctx : LcaCtx) (gid : String) (e : Element) (m : String) (c : SuccessComponent),
      process_material ctx gid e m = Component.success c → c.amortization ≠ 0) := by
  have hne : ∀ (x : Option ℤ), pyOrSixty x ≠ 0 := by
    intro x
    cases x with
    | none => decide
    | some v =>
      by_cases hv : v = 0
      · subst hv; decide
      · simp [pyOrSixty, hv]
  refine ⟨fun table ebkp => hne _, fun table ebkp h => ?_, fun ctx gid e m c hc => ?_⟩
  · rcases h with h | h <;> rw [h] <;> rfl
  · obtain ⟨kid, km, _, _, rfl⟩ := process_material_success_inv ctx gid e m c hc
    exact hne _

/-- C10 witness: the empty table yields a non-zero (60) divisor, a 0-year
entry is replaced by 60, and the fixture's success component has a
non-zero amortization. -/
theorem lca_amortization_never_zero_witness :
    pyOrSixty (get_life_expectancy [] "X") ≠ 0
    ∧ pyOrSixty (get_life_expectancy [("C", 0)] "C") = 60
    ∧ (successOf ctxC1 "g" elemFrac0 "mat" "K" kmUnit).amortization ≠ 0 :=
  ⟨lca_amortization_never_zero.1 [] "X",
   lca_amortization_never_zero.2.1 [("C", 0)] "C" (Or.inr (by decide)),
   lca_amortization_never_zero.2.2 ctxC1 "g" elemFrac0 "mat" _ rfl⟩
